import Mathlib

/-!
Shallow embedding of three source files of the sarpy repository:

* src/sarpy/io/complex/sicd_elements/ImageFormation.py
* src/sarpy/io/complex/sidd_elements/sidd1_elements/ProductDisplay.py
* src/sarpy/io/nitf/tres/unclass/CSCCGA.py

Python floats are modelled as exact rationals (the operations involved are
addition and order comparison), Python ints as unbounded integers, numpy
unsigned arrays as lists of naturals (with explicit mod 2^16 at stores),
and fallible code as Except.  Record state is immutable: every mutating
method is a function from the old node to the new node (or to an error),
and validity checks return the post-state node alongside their reports so
that frame properties can be stated.
-/

set_option autoImplicit false

namespace Sarpy

/-! ## Python string primitives

These are written as structural recursions over the character list of a
string, so that concrete runs reduce inside the kernel. -/

/-- Split a character list at every character satisfying p, keeping empty
pieces (the behaviour of Python str.split with an explicit separator). -/
def splitChars (p : Char → Bool) : List Char → List Char → List (List Char)
  | [], acc => [acc.reverse]
  | c :: rest, acc =>
    if p c then acc.reverse :: splitChars p rest []
    else splitChars p rest (c :: acc)

/-- Strip leading and trailing whitespace. -/
def trimChars (l : List Char) : List Char :=
  ((l.dropWhile (fun c => c.isWhitespace)).reverse.dropWhile (fun c => c.isWhitespace)).reverse

def digitsToNat (l : List Char) : Nat :=
  l.foldl (fun acc c => acc * 10 + (c.toNat - '0'.toNat)) 0

/-- Python int(s): strip surrounding whitespace, optional sign, then a
non-empty run of decimal digits; anything else raises ValueError. -/
def pyInt (s : String) : Except String Int :=
  let t := trimChars s.data
  let (sign, digits) :=
    match t with
    | '-' :: rest => ((-1 : Int), rest)
    | '+' :: rest => ((1 : Int), rest)
    | _ => ((1 : Int), t)
  if digits.length ≠ 0 ∧ digits.all (fun c => c.isDigit) then
    .ok (sign * (digitsToNat digits : Nat))
  else
    .error ("invalid literal for int() with base 10: " ++ s)

/-- Python str.split() with no argument: split on runs of whitespace,
empty tokens dropped. -/
def pySplitWs (s : String) : List String :=
  ((splitChars (fun c => c.isWhitespace) s.data []).map String.mk).filter
    (fun t => t.length != 0)

/-- Python str.split(c) on a single separator character: empty tokens kept. -/
def pySplitOn (sep : Char) (s : String) : List String :=
  (splitChars (fun c => c = sep) s.data []).map String.mk

/-- Space-joined concatenation, the str.join of the source's to_node. -/
def joinWithSpace : List String → String
  | [] => ""
  | [x] => x
  | x :: rest => x ++ " " ++ joinWithSpace rest

/-- Decimal rendering of a natural number, written structurally (fuel is the
number itself) so that concrete runs reduce inside the kernel. -/
def natDigits : Nat → Nat → List Char
  | 0, _ => []
  | fuel + 1, n =>
    if n < 10 then [Char.ofNat (n + '0'.toNat)]
    else natDigits fuel (n / 10) ++ [Char.ofNat (n % 10 + '0'.toNat)]

def natToString (n : Nat) : String := String.mk (natDigits (n + 1) n)

/-! ## ImageFormation.py: record structures

Every descriptor-backed field is an Option (absent = Python None).
Complex numbers are pairs of rationals, dates are kept as strings,
a ParametersCollection is an association list. -/

structure RcvChanProcType where
  NumChanProc : Option Int
  PRFScaleFactor : Option ℚ
  ChanIndices : Option (List Int)
  deriving DecidableEq, Repr

structure TxFrequencyProcType where
  MinProc : Option ℚ
  MaxProc : Option ℚ
  deriving DecidableEq, Repr

structure ProcessingType where
  type_ : Option String
  Applied : Option Bool
  Parameters : Option (List (String × String))
  deriving DecidableEq, Repr

structure DistortionType where
  CalibrationDate : Option String
  A : Option ℚ
  F1 : Option (ℚ × ℚ)
  Q1 : Option (ℚ × ℚ)
  Q2 : Option (ℚ × ℚ)
  F2 : Option (ℚ × ℚ)
  Q3 : Option (ℚ × ℚ)
  Q4 : Option (ℚ × ℚ)
  GainErrorA : Option ℚ
  GainErrorF1 : Option ℚ
  GainErrorF2 : Option ℚ
  PhaseErrorF1 : Option ℚ
  PhaseErrorF2 : Option ℚ
  deriving DecidableEq, Repr

structure PolarizationCalibrationType where
  DistortCorrectApplied : Option Bool
  Distortion : Option DistortionType
  deriving DecidableEq, Repr

structure ImageFormationType where
  RcvChanProc : Option RcvChanProcType
  TxRcvPolarizationProc : Option String
  TStartProc : Option ℚ
  TEndProc : Option ℚ
  TxFrequencyProc : Option TxFrequencyProcType
  SegmentIdentifier : Option String
  ImageFormAlgo : Option String
  STBeamComp : Option String
  ImageBeamComp : Option String
  AzAutofocus : Option String
  RgAutofocus : Option String
  Processings : Option (List ProcessingType)
  PolarizationCalibration : Option PolarizationCalibrationType
  deriving DecidableEq, Repr

/-- The node with every field absent. -/
def emptyImageFormation : ImageFormationType :=
  ⟨none, none, none, none, none, none, none, none, none, none, none, none, none⟩

/-! ## Modelled from the spec: the sibling RadarCollection record.

RadarCollection.py is not under src/; ImageFormation.py only reads
RadarCollection.TxFrequency.Min and RadarCollection.TxFrequency.Max, and the
spec describes the hook as copying from a named field on a sibling record,
so the sibling is modelled as exactly that shape. -/

structure TxFrequencyType where
  Min : Option ℚ
  Max : Option ℚ
  deriving DecidableEq, Repr

structure RadarCollectionType where
  TxFrequency : Option TxFrequencyType
  deriving DecidableEq, Repr

/-! ## ImageFormation.py: schema tables, verbatim from the source -/

def RcvChanProcType_fields : List String := ["NumChanProc", "PRFScaleFactor", "ChanIndices"]
def RcvChanProcType_required : List String := ["NumChanProc", "ChanIndices"]
def RcvChanProcType_collections : List String := ["ChanIndices"]

def TxFrequencyProcType_fields : List String := ["MinProc", "MaxProc"]
def TxFrequencyProcType_required : List String := TxFrequencyProcType_fields
def TxFrequencyProcType_collections : List String := []

def ProcessingType_fields : List String := ["Type", "Applied", "Parameters"]
def ProcessingType_required : List String := ["Type", "Applied"]
def ProcessingType_collections : List String := ["Parameters"]

def DistortionType_fields : List String :=
  ["CalibrationDate", "A", "F1", "F2", "Q1", "Q2", "Q3", "Q4",
   "GainErrorA", "GainErrorF1", "GainErrorF2", "PhaseErrorF1", "PhaseErrorF2"]
def DistortionType_required : List String := ["A", "F1", "Q1", "Q2", "F2", "Q3", "Q4"]
def DistortionType_collections : List String := []

def PolarizationCalibrationType_fields : List String := ["DistortCorrectApplied", "Distortion"]
def PolarizationCalibrationType_required : List String := PolarizationCalibrationType_fields
def PolarizationCalibrationType_collections : List String := []

def ImageFormationType_fields : List String :=
  ["RcvChanProc", "TxRcvPolarizationProc", "TStartProc", "TEndProc", "TxFrequencyProc",
   "SegmentIdentifier", "ImageFormAlgo", "STBeamComp", "ImageBeamComp", "AzAutofocus",
   "RgAutofocus", "Processings", "PolarizationCalibration"]
def ImageFormationType_required : List String :=
  ["RcvChanProc", "TxRcvPolarizationProc", "TStartProc", "TEndProc", "TxFrequencyProc",
   "ImageFormAlgo", "STBeamComp", "ImageBeamComp", "AzAutofocus", "RgAutofocus"]
def ImageFormationType_collections : List String := ["Processings"]

def DUAL_POLARIZATION_VALUES : List String :=
  ["V:V", "V:H", "V:RHC", "V:LHC",
   "H:V", "H:H", "H:RHC", "H:LHC",
   "RHC:V", "RHC:H", "RHC:RHC", "RHC:LHC",
   "LHC:V", "LHC:H", "LHC:RHC", "LHC:LHC",
   "OTHER", "UNKNOWN"]
def IMG_FORM_ALGO_VALUES : List String := ["PFA", "RMA", "RGAZCOMP", "OTHER"]
def ST_BEAM_COMP_VALUES : List String := ["NO", "GLOBAL", "SV"]
def IMG_BEAM_COMP_VALUES : List String := ["NO", "SV"]
def AZ_AUTOFOCUS_VALUES : List String := ST_BEAM_COMP_VALUES
def RG_AUTOFOCUS_VALUES : List String := ST_BEAM_COMP_VALUES

/-! ## ImageFormation.py: methods -/

/-- TxFrequencyProcType._apply_reference_frequency: add the offset to each
of MinProc and MaxProc when present. -/
def TxFrequencyProcType.applyReferenceFrequency
    (self : TxFrequencyProcType) (referenceFrequency : ℚ) : TxFrequencyProcType :=
  let s1 :=
    match self.MinProc with
    | some m => { self with MinProc := some (m + referenceFrequency) }
    | none => self
  match s1.MaxProc with
  | some m => { s1 with MaxProc := some (m + referenceFrequency) }
  | none => s1

/-- ImageFormationType._apply_reference_frequency: delegate to the nested
TxFrequencyProc when present. -/
def ImageFormationType.applyReferenceFrequency
    (self : ImageFormationType) (referenceFrequency : ℚ) : ImageFormationType :=
  match self.TxFrequencyProc with
  | some t => { self with TxFrequencyProc := some (t.applyReferenceFrequency referenceFrequency) }
  | none => self

/-- ImageFormationType._derive_tx_frequency_proc, translated branch by branch
from the source.  The guard requires the sibling RadarCollection, its
TxFrequency, and both bounds to be present.  The source then tests
TxFrequencyProc with the literal condition written there: the branch taken
when TxFrequencyProc IS PRESENT rebuilds it from the sibling, and the elif
branches (reached only when TxFrequencyProc is None) dereference None,
which in Python raises AttributeError. -/
def ImageFormationType.deriveTxFrequencyProc
    (self : ImageFormationType) (RadarCollection : Option RadarCollectionType) :
    Except String ImageFormationType :=
  match RadarCollection with
  | none => .ok self
  | some rc =>
    match rc.TxFrequency with
    | none => .ok self
    | some txf =>
      match txf.Min, txf.Max with
      | some mn, some mx =>
        match self.TxFrequencyProc with
        | some _ => .ok { self with TxFrequencyProc := some ⟨some mn, some mx⟩ }
        | none => .error "AttributeError: NoneType object has no attribute MinProc"
      | _, _ => .ok self

/-! ## ImageFormation.py: validity checks

Each check returns the post-state node together with its reports, so that
the no-mutation claim can be stated.  Logged cross-field failures are kept
in their own list, carrying both offending values, separate from the
required-field reports of the (spec-modelled) superclass check. -/

structure TxFreqCheckResult where
  node : TxFrequencyProcType
  condition : Bool
  requiredErrors : List String
  freqBoundsViolations : List (ℚ × ℚ)
  deriving DecidableEq, Repr

/-- Modelled from the spec: the Serializable base-class validity check
(base.py is not under src/).  Per section 4.5, for every name in the
required set an absent value yields a MissingRequiredField report; the check
only reads fields and never mutates values. -/
def TxFrequencyProcType.superValidityCheck (self : TxFrequencyProcType) : TxFreqCheckResult :=
  let errs :=
    (if self.MinProc.isNone then ["MissingRequiredField: MinProc"] else [])
      ++ (if self.MaxProc.isNone then ["MissingRequiredField: MaxProc"] else [])
  { node := self, condition := errs.isEmpty, requiredErrors := errs, freqBoundsViolations := [] }

/-- TxFrequencyProcType._basic_validity_check: after the superclass check,
when both bounds are present and MaxProc < MinProc, log one violation and
return False. -/
def TxFrequencyProcType.basicValidityCheck (self : TxFrequencyProcType) : TxFreqCheckResult :=
  let sup := self.superValidityCheck
  match self.MinProc, self.MaxProc with
  | some mn, some mx =>
    if mx < mn then
      { sup with condition := false,
                 freqBoundsViolations := sup.freqBoundsViolations ++ [(mn, mx)] }
    else sup
  | _, _ => sup

structure IFCheckResult where
  node : ImageFormationType
  condition : Bool
  requiredErrors : List String
  timeBoundsViolations : List (ℚ × ℚ)
  deriving DecidableEq, Repr

/-- The required-field reports for ImageFormationType, one per absent name of
the required set. -/
def ImageFormationType.missingRequired (self : ImageFormationType) : List String :=
  (if self.RcvChanProc.isNone then ["MissingRequiredField: RcvChanProc"] else [])
    ++ (if self.TxRcvPolarizationProc.isNone then ["MissingRequiredField: TxRcvPolarizationProc"] else [])
    ++ (if self.TStartProc.isNone then ["MissingRequiredField: TStartProc"] else [])
    ++ (if self.TEndProc.isNone then ["MissingRequiredField: TEndProc"] else [])
    ++ (if self.TxFrequencyProc.isNone then ["MissingRequiredField: TxFrequencyProc"] else [])
    ++ (if self.ImageFormAlgo.isNone then ["MissingRequiredField: ImageFormAlgo"] else [])
    ++ (if self.STBeamComp.isNone then ["MissingRequiredField: STBeamComp"] else [])
    ++ (if self.ImageBeamComp.isNone then ["MissingRequiredField: ImageBeamComp"] else [])
    ++ (if self.AzAutofocus.isNone then ["MissingRequiredField: AzAutofocus"] else [])
    ++ (if self.RgAutofocus.isNone then ["MissingRequiredField: RgAutofocus"] else [])

/-- Modelled from the spec: the Serializable base-class validity check for
ImageFormationType (base.py is not under src/): required-field reports,
plus recursion into the present nested TxFrequencyProc record, whose own
check result is folded into the condition; reporting only, per section 4.5
it never mutates values. -/
def ImageFormationType.superValidityCheck (self : ImageFormationType) : IFCheckResult :=
  let reqErrs := self.missingRequired
  match self.TxFrequencyProc with
  | some t =>
    let r := t.basicValidityCheck
    { node := { self with TxFrequencyProc := some r.node },
      condition := reqErrs.isEmpty && r.condition,
      requiredErrors := reqErrs,
      timeBoundsViolations := [] }
  | none =>
    { node := self, condition := reqErrs.isEmpty,
      requiredErrors := reqErrs, timeBoundsViolations := [] }

/-- ImageFormationType._basic_validity_check: after the superclass check,
when both time bounds are present and TEndProc < TStartProc, log one
violation carrying both values and return False. -/
def ImageFormationType.basicValidityCheck (self : ImageFormationType) : IFCheckResult :=
  let sup := self.superValidityCheck
  match self.TStartProc, self.TEndProc with
  | some ts, some te =>
    if te < ts then
      { sup with condition := false,
                 timeBoundsViolations := sup.timeBoundsViolations ++ [(ts, te)] }
    else sup
  | _, _ => sup

/-! ## ProductDisplay.py: numpy arrays and ColorDisplayRemapType

A numpy array is modelled by its shape, its dtype name, and its entries in
row-major order; the claims only involve unsigned dtypes, so entries are
naturals. -/

structure NpArray where
  shape : List Nat
  dtypeName : String
  data : List Nat
  deriving DecidableEq, Repr

def NpArray.ndim (a : NpArray) : Nat := a.shape.length

structure ColorDisplayRemapType where
  remapLut : Option NpArray
  deriving DecidableEq, Repr

/-- The RemapLUT setter of ColorDisplayRemapType, for an ndarray input (the
tuple/list conversion branch of the source is not involved in the claims):
reject a dtype other than uint8/uint16; then the shape guard of the source,
with Python evaluation order: value.shape[1] is only evaluated when
value.ndim != 2, and raises IndexError when the shape has no second entry. -/
def ColorDisplayRemapType.setRemapLUT (value : Option NpArray) :
    Except String (Option NpArray) :=
  match value with
  | none => .ok none
  | some v =>
    if v.dtypeName ≠ "uint8" ∧ v.dtypeName ≠ "uint16" then
      .error "RemapLUT for class ColorDisplayRemapType must be a numpy.ndarray of dtype uint8 or uint16."
    else if v.ndim ≠ 2 then
      match v.shape.get? 1 with
      | none => .error "IndexError: tuple index out of range"
      | some s1 =>
        if s1 ≠ 3 then
          .error "RemapLUT for class ColorDisplayRemapType must be an N x 3 array."
        else .ok (some v)
    else .ok (some v)

/-- The constructor ColorDisplayRemapType(RemapLUT=...), which routes the
argument through the RemapLUT setter. -/
def ColorDisplayRemapType.init (RemapLUT : Option NpArray) :
    Except String ColorDisplayRemapType :=
  (ColorDisplayRemapType.setRemapLUT RemapLUT).map (fun v => ⟨v⟩)

/-- The part of an ElementTree element that from_node/to_node use for the
RemapLUT child: its size attribute (raw text) and its node text. -/
structure LutXml where
  sizeAttr : String
  text : String
  deriving DecidableEq, Repr

/-- The list comprehension of the source at the assignment into row i:
int(el) for el in entry iterates over the CHARACTERS of the entry string
(commas included), not over its comma-split tokens. -/
def pyIntCharList (entry : String) : Except String (List Int) :=
  entry.toList.mapM (fun c => pyInt (String.mk [c]))

def toU16 (v : Int) : Nat := (v % 65536).toNat

/-- The numpy assignment arr[i, :] = vals on a dim1-by-3 uint16 array held as
a flat row-major list: IndexError when i is out of range, broadcast error
unless exactly three values, stores mod 2^16. -/
def npSetRow (data : List Nat) (dim1 i : Nat) (vals : List Int) :
    Except String (List Nat) :=
  if i < dim1 then
    match vals with
    | [a, b, c] =>
      .ok ((((data.set (3 * i) (toU16 a)).set (3 * i + 1) (toU16 b)).set (3 * i + 2) (toU16 c)))
    | _ => .error "ValueError: could not broadcast input array"
  else .error "IndexError: index is out of bounds"

/-- The entry loop of ColorDisplayRemapType.from_node, statement by
statement: skip empty entries; an entry whose comma-split token count is
not 3 is logged and skipped; otherwise the character-wise int() conversion
runs (raising ValueError at the first comma), and on success the row is
stored and the row index advanced. -/
def lutParseLoop : List String → Nat → List Nat → Nat → List String →
    Except String (List Nat × List String)
  | [], _, data, _, errs => .ok (data, errs)
  | entry :: rest, dim1, data, i, errs =>
    if entry.length = 0 then lutParseLoop rest dim1 data i errs
    else
      let sentry := pySplitOn ',' entry
      if sentry.length ≠ 3 then
        lutParseLoop rest dim1 data i
          (errs ++ ["Parsing RemapLUT is likely compromised. Got entry " ++ entry
                     ++ ", which we are skipping."])
      else
        match pyIntCharList entry with
        | .error e => .error e
        | .ok vals =>
          match npSetRow data dim1 i vals with
          | .error e => .error e
          | .ok d2 => lutParseLoop rest dim1 d2 (i + 1) errs

/-- ColorDisplayRemapType.from_node, given the RemapLUT child (or its
absence).  The result carries the constructed node and the logged
skip diagnostics.  After the loop the source takes numpy.max over the
array (which raises on a zero-size array) and casts to uint8 when every
entry is below 256; the node is then built through the constructor and
hence the RemapLUT setter. -/
def ColorDisplayRemapType.fromNode (lutNode : Option LutXml) :
    Except String (ColorDisplayRemapType × List String) :=
  match lutNode with
  | none => (ColorDisplayRemapType.init none).map (fun s => (s, []))
  | some l =>
    match pyInt l.sizeAttr with
    | .error e => .error e
    | .ok dim1i =>
      if dim1i < 0 then .error "ValueError: negative dimensions are not allowed"
      else
        let dim1 := dim1i.toNat
        let data := List.replicate (dim1 * 3) 0
        let entries := pySplitWs l.text
        match lutParseLoop entries dim1 data 0 [] with
        | .error e => .error e
        | .ok (d, errs) =>
          if dim1 * 3 = 0 then
            .error "ValueError: zero-size array to reduction operation maximum which has no identity"
          else
            let mx := d.foldl max 0
            let dtype := if mx < 256 then "uint8" else "uint16"
            (ColorDisplayRemapType.init (some ⟨[dim1, 3], dtype, d⟩)).map (fun s => (s, errs))

/-- One serialized LUT row, the format string of the source applied to the
first three entries of the row (Python format with star-arguments ignores
surplus entries and raises IndexError when fewer than three are present;
the error case cannot arise for the N-by-3 arrays the setter admits). -/
def fmtLutEntry (row : List Nat) : String :=
  match row with
  | a :: b :: c :: _ => natToString a ++ "," ++ natToString b ++ "," ++ natToString c
  | _ => "IndexError"

/-- Iteration over a two-dimensional numpy array yields its rows: group the
flat row-major data three by three. -/
def chunk3 : List Nat → List (List Nat)
  | a :: b :: c :: rest => [a, b, c] :: chunk3 rest
  | [] => []
  | rest => [rest]

/-- ColorDisplayRemapType.to_node, restricted to the RemapLUT child it
creates: absent LUT emits nothing; otherwise the text is the
space-joined comma-formatted rows and the size attribute is
str(self.size) = str(shape[0]). -/
def ColorDisplayRemapType.toNode (self : ColorDisplayRemapType) : Option LutXml :=
  match self.remapLut with
  | none => none
  | some arr =>
    some { sizeAttr := natToString (arr.shape.headD 0),
           text := joinWithSpace ((chunk3 arr.data).map fmtLutEntry) }

/-! ## ProductDisplay.py: schema tables, verbatim from the source -/

def MonochromeDisplayRemapType_fields : List String := ["RemapType", "RemapParameters"]
def MonochromeDisplayRemapType_required : List String := ["RemapType"]
def MonochromeDisplayRemapType_collections : List String := ["RemapParameters"]

def RemapChoiceType_fields : List String := ["ColorDisplayRemap", "MonochromeDisplayRemap"]
def RemapChoiceType_required : List String := []
def RemapChoiceType_collections : List String := []

def MonitorCompensationAppliedType_fields : List String := ["Gamma", "XMin"]
def MonitorCompensationAppliedType_required : List String := ["Gamma", "XMin"]
def MonitorCompensationAppliedType_collections : List String := []

def DRAHistogramOverridesType_fields : List String := ["ClipMin", "ClipMax"]
def DRAHistogramOverridesType_required : List String := ["ClipMin", "ClipMax"]
def DRAHistogramOverridesType_collections : List String := []

def ProductDisplayType_fields : List String :=
  ["PixelType", "RemapInformation", "MagnificationMethod", "DecimationMethod",
   "DRAHistogramOverrides", "MonitorCompensationApplied", "DisplayExtension"]
def ProductDisplayType_required : List String := ["PixelType"]
def ProductDisplayType_collections : List String := ["DisplayExtensions"]

def PIXEL_TYPE_VALUES : List String := ["MONO8I", "MONO8LU", "MONO16I", "RGBL8U", "RGB24I"]
def MAGNIFICATION_METHOD_VALUES : List String := ["NEAREST_NEIGHBOR", "BILINEAR", "LAGRANGE"]
def DECIMATION_METHOD_VALUES : List String :=
  ["NEAREST_NEIGHBOR", "BILINEAR", "BRIGHTEST_PIXEL", "LAGRANGE"]

/-- A record schema satisfies the invariant of section 3 when every required
name and every collections key is a declared field name. -/
def schemaOk (fields req colls : List String) : Bool :=
  req.all (fun n => fields.contains n) && colls.all (fun n => fields.contains n)

/-- Every record type of the repository that declares a field table, with its
fields, required set and collections keys. -/
def repoSchemas : List (String × List String × List String × List String) :=
  [("RcvChanProcType", RcvChanProcType_fields, RcvChanProcType_required, RcvChanProcType_collections),
   ("TxFrequencyProcType", TxFrequencyProcType_fields, TxFrequencyProcType_required, TxFrequencyProcType_collections),
   ("ProcessingType", ProcessingType_fields, ProcessingType_required, ProcessingType_collections),
   ("DistortionType", DistortionType_fields, DistortionType_required, DistortionType_collections),
   ("PolarizationCalibrationType", PolarizationCalibrationType_fields, PolarizationCalibrationType_required, PolarizationCalibrationType_collections),
   ("ImageFormationType", ImageFormationType_fields, ImageFormationType_required, ImageFormationType_collections),
   ("MonochromeDisplayRemapType", MonochromeDisplayRemapType_fields, MonochromeDisplayRemapType_required, MonochromeDisplayRemapType_collections),
   ("RemapChoiceType", RemapChoiceType_fields, RemapChoiceType_required, RemapChoiceType_collections),
   ("MonitorCompensationAppliedType", MonitorCompensationAppliedType_fields, MonitorCompensationAppliedType_required, MonitorCompensationAppliedType_collections),
   ("DRAHistogramOverridesType", DRAHistogramOverridesType_fields, DRAHistogramOverridesType_required, DRAHistogramOverridesType_collections),
   ("ProductDisplayType", ProductDisplayType_fields, ProductDisplayType_required, ProductDisplayType_collections)]

/-! ## CSCCGA.py: the fixed-width binary layout

The layout itself (names, kinds, widths) is verbatim from CSCCGA.py; the
deserialization engine (TREElement.add_field in tre_elements.py) is not
under src/ and is modelled from the spec, section 4.4. -/

inductive TreKind where
  | s
  | d
  deriving DecidableEq, Repr

inductive TreValue where
  | str (v : String)
  | num (v : Int)
  deriving DecidableEq, Repr

/-- The CSCCGAType field table: the eight add_field calls of the source in
declaration order, each with its kind character and byte width. -/
def CSCCGAType_layout : List (String × TreKind × Nat) :=
  [("CCG_SOURCE", .s, 18),
   ("REG_SENSOR", .s, 6),
   ("ORIGIN_LINE", .d, 7),
   ("ORIGIN_SAMPLE", .d, 5),
   ("AS_CELL_SIZE", .d, 7),
   ("CS_CELL_SIZE", .d, 5),
   ("CCG_MAX_LINE", .d, 7),
   ("CCG_MAX_SAMPLE", .d, 5)]

def treTotalWidth (layout : List (String × TreKind × Nat)) : Nat :=
  (layout.map (fun f => f.2.2)).sum

/-- The cumulative slice offsets of a layout, in declaration order. -/
def treOffsets : List (String × TreKind × Nat) → Nat → List Nat
  | [], _ => []
  | (_, _, w) :: rest, off => off :: treOffsets rest (off + w)

/-- Modelled from the spec: the per-field type coercion of the binary codec
(tre_elements.py is not under src/).  A string field keeps its slice; an
integer field parses its (space- or zero-padded) slice as a decimal
integer, failing on non-numeric content. -/
def treCoerce (kind : TreKind) (slice : List Char) : Except String TreValue :=
  match kind with
  | .s => .ok (.str (String.mk slice))
  | .d => (pyInt (String.mk slice)).map TreValue.num

/-- Modelled from the spec: the slicing pass of the binary deserializer
(tre_elements.py is not under src/): walk the layout in declaration order,
cutting each field's slice at its cumulative offset and coercing it per its
kind. -/
def treSlices : List (String × TreKind × Nat) → List Char → Nat →
    Except String (List (String × TreValue))
  | [], _, _ => .ok []
  | (name, kind, w) :: rest, buf, off =>
    match treCoerce kind ((buf.drop off).take w) with
    | .error e => .error e
    | .ok v => (treSlices rest buf (off + w)).map (fun tl => (name, v) :: tl)

/-- Modelled from the spec: deserialize(bytes, layout) of section 4.4
(tre_elements.py is not under src/): a buffer shorter than the layout's
total width fails with TruncatedRecord, otherwise the buffer is sliced at
cumulative offsets in declaration order; trailing bytes are ignored. -/
def treDeserialize (layout : List (String × TreKind × Nat)) (buf : List Char) :
    Except String (List (String × TreValue)) :=
  if buf.length < treTotalWidth layout then .error "TruncatedRecord"
  else treSlices layout buf 0

/-! ## Modelled from the spec: the enumerated-string descriptor

The _StringEnumDescriptor engine lives in base.py, which is not under src/;
sections 4.1 and 7 of the spec fix its contract: in strict (immediate) mode
an assignment outside the value set is rejected; in lenient mode it is
stored but collected as an EnumViolation by validation — never silently
accepted. -/

def enumAssign (values : List String) (strict : Bool) (v : String) :
    Except String (Option String) :=
  if values.contains v then .ok (some v)
  else if strict then .error ("EnumViolation: " ++ v)
  else .ok (some v)

/-- Modelled from the spec: the lenient-mode validation pass over one
enumerated field: a present value outside the declared set yields one
EnumViolation report. -/
def enumValidate (values : List String) (cur : Option String) : List String :=
  match cur with
  | none => []
  | some v => if values.contains v then [] else ["EnumViolation: " ++ v]

/-- The declared value set of every enumerated-string field appearing in the
source files (AzAutofocus and RgAutofocus reuse the STBeamComp set). -/
def repoEnumValueSets : List (List String) :=
  [DUAL_POLARIZATION_VALUES, IMG_FORM_ALGO_VALUES, ST_BEAM_COMP_VALUES,
   IMG_BEAM_COMP_VALUES, PIXEL_TYPE_VALUES, MAGNIFICATION_METHOD_VALUES,
   DECIMATION_METHOD_VALUES]

/-! ## Theorems for the claims -/

/-- C1.  The derivation hook does the opposite of the claim on both sides:
with a sibling RadarCollection carrying TxFrequency Min = 3 and Max = 4, a
node whose TxFrequencyProc is already fully present as (1, 2) has it
OVERWRITTEN to (3, 4), and a node whose TxFrequencyProc is entirely absent
is not given a fresh value but raises AttributeError (the source tests
"is not None" where the surrounding elif structure requires "is None"). -/
theorem deriveTxFrequencyProc_at_failing_inputs :
    ImageFormationType.deriveTxFrequencyProc
        { emptyImageFormation with TxFrequencyProc := some ⟨some 1, some 2⟩ }
        (some ⟨some ⟨some 3, some 4⟩⟩)
      = .ok { emptyImageFormation with TxFrequencyProc := some ⟨some 3, some 4⟩ }
    ∧ ImageFormationType.deriveTxFrequencyProc emptyImageFormation
        (some ⟨some ⟨some 3, some 4⟩⟩)
      = .error "AttributeError: NoneType object has no attribute MinProc" :=
  ⟨rfl, rfl⟩

/-- C2.  On the RemapLUT text "1,2,3 4,5" (size attribute 1), from_node does
not parse the first row and skip the second: it aborts the whole parse with
ValueError, because the assignment converts the characters of the entry
string (commas included) instead of its comma-split tokens. -/
theorem fromNode_aborts_on_malformed_lut :
    ColorDisplayRemapType.fromNode (some ⟨"1", "1,2,3 4,5"⟩)
      = .error "invalid literal for int() with base 10: ," :=
  rfl

/-- C3.  Serialize-then-deserialize is not the identity for a valid 1-by-3
uint8 table: to_node renders the row (1, 2, 3) as the text "1,2,3" with
size attribute 1, and from_node then aborts with ValueError on that very
text (the same character-iteration slip as in C2), so no node at all is
produced. -/
theorem lut_round_trip_fails :
    ColorDisplayRemapType.fromNode
        (ColorDisplayRemapType.toNode ⟨some ⟨[1, 3], "uint8", [1, 2, 3]⟩⟩)
      = .error "invalid literal for int() with base 10: ," :=
  rfl

/-- C4.  Every record type of the repository satisfies the schema invariant
except ProductDisplayType: its collections table is keyed by
"DisplayExtensions" while its field table declares "DisplayExtension"
(without the final s), so that key names no declared field. -/
theorem productDisplay_collections_key_not_declared :
    ("DisplayExtensions" ∈ ProductDisplayType_collections
        ∧ "DisplayExtensions" ∉ ProductDisplayType_fields)
    ∧ schemaOk ProductDisplayType_fields ProductDisplayType_required
        ProductDisplayType_collections = false
    ∧ repoSchemas.all
        (fun s => s.1 = "ProductDisplayType" || schemaOk s.2.1 s.2.2.1 s.2.2.2) = true
    ∧ schemaOk ImageFormationType_fields ImageFormationType_required
        ImageFormationType_collections = true := by
  decide

/-- C10.  The RemapLUT setter of ColorDisplayRemapType accepts and stores
every two-dimensional uint8/uint16 array unchanged, whatever its second
dimension: the shape guard only fires when the dimension count differs
from 2 AND the second dimension differs from 3 simultaneously. -/
theorem setRemapLUT_accepts_any_two_dim (v : NpArray)
    (hd : v.dtypeName = "uint8" ∨ v.dtypeName = "uint16")
    (hs : v.shape.length = 2) :
    ColorDisplayRemapType.setRemapLUT (some v) = .ok (some v) := by
  have h1 : ¬(v.dtypeName ≠ "uint8" ∧ v.dtypeName ≠ "uint16") := by
    rcases hd with h | h <;> simp [h]
  have h2 : ¬(v.ndim ≠ 2) := by simp [NpArray.ndim, hs]
  simp only [ColorDisplayRemapType.setRemapLUT]
  rw [if_neg h1, if_neg h2]

/-- Witness for C10: a 4-by-7 uint8 array (second dimension 7, not 3) is
accepted and stored as is. -/
theorem setRemapLUT_accepts_any_two_dim_witness :
    ColorDisplayRemapType.setRemapLUT (some ⟨[4, 7], "uint8", List.replicate 28 0⟩)
      = .ok (some ⟨[4, 7], "uint8", List.replicate 28 0⟩) :=
  setRemapLUT_accepts_any_two_dim ⟨[4, 7], "uint8", List.replicate 28 0⟩ (Or.inl rfl) rfl

/-- Helper: the superclass check of ImageFormationType produces no
time-bounds violation of its own. -/
lemma superValidityCheck_timeBounds (n : ImageFormationType) :
    (n.superValidityCheck).timeBoundsViolations = [] := by
  cases h : n.TxFrequencyProc <;>
    simp [ImageFormationType.superValidityCheck, h]

/-- C5.  With both time bounds present, the validity check of
ImageFormationType reports exactly one cross-field violation, carrying
both offending values, precisely when TEndProc < TStartProc, and then
returns invalid; when TStartProc ≤ TEndProc it reports no such
violation. -/
theorem basicValidityCheck_time_bounds (n : ImageFormationType) (ts te : ℚ)
    (hs : n.TStartProc = some ts) (he : n.TEndProc = some te) :
    (te < ts →
      (n.basicValidityCheck).timeBoundsViolations = [(ts, te)]
        ∧ (n.basicValidityCheck).condition = false)
    ∧ (ts ≤ te → (n.basicValidityCheck).timeBoundsViolations = []) := by
  have htb := superValidityCheck_timeBounds n
  constructor
  · intro hlt
    refine ⟨?_, ?_⟩ <;>
      simp [ImageFormationType.basicValidityCheck, hs, he, if_pos hlt, htb]
  · intro hle
    simp only [ImageFormationType.basicValidityCheck, hs, he,
      if_neg (not_lt.mpr hle)]
    exact htb

/-- Witness for C5: the node with TStartProc = 5 and TEndProc = 3 yields the
single violation (5, 3) and an invalid verdict. -/
theorem basicValidityCheck_time_bounds_witness :
    (ImageFormationType.basicValidityCheck
        { emptyImageFormation with TStartProc := some 5, TEndProc := some 3 }).timeBoundsViolations
      = [((5 : ℚ), (3 : ℚ))]
    ∧ (ImageFormationType.basicValidityCheck
        { emptyImageFormation with TStartProc := some 5, TEndProc := some 3 }).condition
      = false :=
  (basicValidityCheck_time_bounds
      { emptyImageFormation with TStartProc := some 5, TEndProc := some 3 }
      5 3 rfl rfl).1 (by norm_num)

/-- Helper: linearity of the reference-frequency shift on the nested
record. -/
lemma txFreq_shift_linear (t : TxFrequencyProcType) (a b : ℚ) :
    (t.applyReferenceFrequency a).applyReferenceFrequency b
      = t.applyReferenceFrequency (a + b) := by
  rcases t with ⟨mn, mx⟩
  cases mn <;> cases mx <;>
    simp [TxFrequencyProcType.applyReferenceFrequency, add_assoc]

/-- C6.  Applying the reference-frequency shift with offset a and then with
offset b equals applying it once with a + b, on TxFrequencyProcType and on
the containing ImageFormationType; absent fields (MinProc, MaxProc, or the
whole TxFrequencyProc) are absent before the shift exactly when they are
absent after it. -/
theorem applyReferenceFrequency_linear (t : TxFrequencyProcType)
    (n : ImageFormationType) (a b : ℚ) :
    (t.applyReferenceFrequency a).applyReferenceFrequency b
        = t.applyReferenceFrequency (a + b)
    ∧ (t.applyReferenceFrequency a).MinProc.isNone = t.MinProc.isNone
    ∧ (t.applyReferenceFrequency a).MaxProc.isNone = t.MaxProc.isNone
    ∧ (n.applyReferenceFrequency a).applyReferenceFrequency b
        = n.applyReferenceFrequency (a + b)
    ∧ (n.applyReferenceFrequency a).TxFrequencyProc.isNone
        = n.TxFrequencyProc.isNone := by
  refine ⟨txFreq_shift_linear t a b, ?_, ?_, ?_, ?_⟩
  · rcases t with ⟨mn, mx⟩
    cases mn <;> cases mx <;> simp [TxFrequencyProcType.applyReferenceFrequency]
  · rcases t with ⟨mn, mx⟩
    cases mn <;> cases mx <;> simp [TxFrequencyProcType.applyReferenceFrequency]
  · cases h : n.TxFrequencyProc with
    | none => simp [ImageFormationType.applyReferenceFrequency, h]
    | some t0 =>
      simp [ImageFormationType.applyReferenceFrequency, h, txFreq_shift_linear]
  · cases h : n.TxFrequencyProc <;>
      simp [ImageFormationType.applyReferenceFrequency, h]

/-- Helper: the TxFrequencyProcType validity check returns its input node. -/
lemma txFreqCheck_node_eq (t : TxFrequencyProcType) :
    (t.basicValidityCheck).node = t := by
  rcases t with ⟨mn, mx⟩
  cases mn with
  | none => cases mx <;> rfl
  | some m =>
    cases mx with
    | none => rfl
    | some x =>
      simp only [TxFrequencyProcType.basicValidityCheck,
        TxFrequencyProcType.superValidityCheck]
      split <;> rfl

/-- C9.  Running the basic validity check mutates nothing: both on
TxFrequencyProcType and on ImageFormationType (whose check recurses into
the nested TxFrequencyProc record), the post-state node is the input
node, every field and nested field included. -/
theorem basicValidityCheck_mutates_nothing :
    (∀ t : TxFrequencyProcType, (t.basicValidityCheck).node = t)
    ∧ (∀ n : ImageFormationType, (n.basicValidityCheck).node = n) := by
  refine ⟨txFreqCheck_node_eq, ?_⟩
  intro n
  have hsup : (n.superValidityCheck).node = n := by
    cases h : n.TxFrequencyProc with
    | none => simp [ImageFormationType.superValidityCheck, h]
    | some t =>
      simp only [ImageFormationType.superValidityCheck, h, txFreqCheck_node_eq]
      rw [← h]
  cases hs : n.TStartProc with
  | none =>
    simpa only [ImageFormationType.basicValidityCheck, hs] using hsup
  | some ts =>
    cases he : n.TEndProc with
    | none =>
      simpa only [ImageFormationType.basicValidityCheck, hs, he] using hsup
    | some te =>
      simp only [ImageFormationType.basicValidityCheck, hs, he]
      split
      · exact hsup
      · exact hsup

/-- Helper: a slice wholly inside the first n characters is unchanged by
truncating the buffer to n characters. -/
lemma slice_of_take (buf : List Char) (off w n : Nat) (h : off + w ≤ n) :
    ((buf.take n).drop off).take w = (buf.drop off).take w := by
  rw [List.drop_take, List.take_take]
  congr 1
  omega

/-- Helper: the slicing pass only reads the first (offset + total width)
characters of the buffer. -/
lemma treSlices_take (layout : List (String × TreKind × Nat)) (buf : List Char) :
    ∀ off n : Nat, off + treTotalWidth layout ≤ n →
      treSlices layout (buf.take n) off = treSlices layout buf off := by
  induction layout with
  | nil => intro off n _; rfl
  | cons f rest ih =>
    intro off n h
    obtain ⟨name, kind, w⟩ := f
    have hw : off + w ≤ n ∧ off + w + treTotalWidth rest ≤ n := by
      simp only [treTotalWidth, List.map_cons, List.sum_cons] at h ⊢
      omega
    simp only [treSlices, slice_of_take buf off w n hw.1, ih (off + w) n hw.2]

/-- C7.  The CSCCGA layout totals 60 bytes across its eight fields, whose
cumulative slice offsets in declaration order are 0, 18, 24, 31, 36, 43,
48, 55; deserialization of any buffer shorter than 60 characters fails
with TruncatedRecord, and on any longer buffer it equals the in-order
slice-and-coerce pass and ignores every character at or beyond offset
60. -/
theorem csccga_deserialize_contract (buf : List Char) :
    treTotalWidth CSCCGAType_layout = 60
    ∧ treOffsets CSCCGAType_layout 0 = [0, 18, 24, 31, 36, 43, 48, 55]
    ∧ (buf.length < 60 →
        treDeserialize CSCCGAType_layout buf = .error "TruncatedRecord")
    ∧ (60 ≤ buf.length →
        treDeserialize CSCCGAType_layout buf = treSlices CSCCGAType_layout buf 0
        ∧ treDeserialize CSCCGAType_layout buf
            = treDeserialize CSCCGAType_layout (buf.take 60)) := by
  have ht : treTotalWidth CSCCGAType_layout = 60 := rfl
  refine ⟨ht, rfl, ?_, ?_⟩
  · intro h
    simp only [treDeserialize, ht, if_pos h]
  · intro h
    have h1 : ¬(buf.length < 60) := by omega
    have h2 : ¬((buf.take 60).length < 60) := by
      simp only [List.length_take]
      omega
    refine ⟨by simp only [treDeserialize, ht, if_neg h1], ?_⟩
    simp only [treDeserialize, ht, if_neg h1, if_neg h2]
    exact (treSlices_take CSCCGAType_layout buf 0 60 (by simp [ht])).symm

/-- Witness for C7: a 59-character buffer is rejected as truncated, and a
61-character buffer is deserialized identically to its first 60
characters. -/
theorem csccga_deserialize_contract_witness :
    ((List.replicate 59 '0').length < 60
      ∧ treDeserialize CSCCGAType_layout (List.replicate 59 '0')
          = .error "TruncatedRecord")
    ∧ (60 ≤ (List.replicate 61 '0').length
      ∧ treDeserialize CSCCGAType_layout (List.replicate 61 '0')
          = treDeserialize CSCCGAType_layout ((List.replicate 61 '0').take 60)) :=
  ⟨⟨by simp, (csccga_deserialize_contract (List.replicate 59 '0')).2.2.1 (by simp)⟩,
   ⟨by simp, ((csccga_deserialize_contract (List.replicate 61 '0')).2.2.2 (by simp)).2⟩⟩

/-- C8.  For every enumerated value set declared in the source files, an
assignment of a string outside the set is never silently accepted: in
strict mode the assignment itself is rejected with an EnumViolation, and
in lenient mode the value is stored but the validation pass reports the
EnumViolation. -/
theorem enum_assignment_never_silent (values : List String) (strict : Bool)
    (v : String) (_hvals : values ∈ repoEnumValueSets)
    (h : values.contains v = false) :
    (strict = true →
      enumAssign values strict v = .error ("EnumViolation: " ++ v))
    ∧ (strict = false →
      enumAssign values strict v = .ok (some v)
        ∧ enumValidate values (some v) = ["EnumViolation: " ++ v]) := by
  have h' : v ∉ values := by simpa using h
  constructor
  · intro hstrict
    subst hstrict
    simp [enumAssign, h, h']
  · intro hstrict
    subst hstrict
    simp [enumAssign, enumValidate, h, h']

/-- Witness for C8: the dual-polarization set rejects "X:Y" at strict
assignment, and the pixel-type set flags "MONO32I" in lenient validation
after storing it. -/
theorem enum_assignment_never_silent_witness :
    enumAssign DUAL_POLARIZATION_VALUES true "X:Y"
        = .error ("EnumViolation: " ++ "X:Y")
    ∧ (enumAssign PIXEL_TYPE_VALUES false "MONO32I" = .ok (some "MONO32I")
        ∧ enumValidate PIXEL_TYPE_VALUES (some "MONO32I")
            = ["EnumViolation: " ++ "MONO32I"]) :=
  ⟨(enum_assignment_never_silent DUAL_POLARIZATION_VALUES true "X:Y"
      (by decide) (by decide)).1 rfl,
   (enum_assignment_never_silent PIXEL_TYPE_VALUES false "MONO32I"
      (by decide) (by decide)).2 rfl⟩

end Sarpy
